import Mathlib

/-!
# Verification of the mindbridge backend core

A shallow embedding, in Lean, of the content-safety scanner
(`backend/services/safety.go`), the circle-matching and risk-triage engine
(`backend/services/circle_matching.go`), the onboarding screening logic
(`backend/handlers/onboarding.go`) and the realtime socket handlers
(`backend/websocket/socket_server.go`), together with theorems about them.

Go machine integers are modelled as `Int` (no overflow is reachable in any
of the embedded code paths); Go slices become `List`; fallible persistence
operations become explicit state passing over a state structure, with
`Except`/`Option` for errors.  Go strings are UTF-8 byte strings; we carry
them as Lean `String` (a sequence of logical characters) and make the
byte/rune distinction explicit where the source code makes it (the safety
scanner's regex engine reports byte offsets; masking operates on a rune
slice).
-/

namespace Mindbridge

/-! ## Go string helpers -/

/-- `strings.ToLower` restricted to ASCII case mapping, which is all the
embedded call sites feed it. -/
def goToLower (s : String) : String := String.mk (s.data.map Char.toLower)

/-- `strings.Contains s sub`: `sub` occurs contiguously in `s` (over logical
characters; all call sites in the matcher compare ASCII-only keyword data). -/
def strContains (s sub : String) : Bool :=
  (List.range (s.data.length + 1)).any (fun i => sub.data.isPrefixOf (s.data.drop i))

/-- The whitespace set of Go's `unicode.IsSpace` on the code points the
backend can realistically see: ASCII whitespace plus NEL and NBSP. -/
def isGoSpace (ch : Char) : Bool :=
  ch = ' ' || ch = '\t' || ch = '\n' || ch = Char.ofNat 11 || ch = Char.ofNat 12 ||
    ch = '\r' || ch = Char.ofNat 0x85 || ch = Char.ofNat 0xA0

/-- `strings.TrimSpace`: drop leading and trailing whitespace. -/
def goTrimSpace (s : String) : String :=
  String.mk (((s.data.dropWhile isGoSpace).reverse.dropWhile isGoSpace).reverse)

/-- UTF-8 encoding of one character, as byte values. -/
def utf8EncodeChar (c : Char) : List Nat :=
  let n := c.toNat
  if n < 0x80 then [n]
  else if n < 0x800 then [0xC0 ||| (n >>> 6), 0x80 ||| (n &&& 0x3F)]
  else if n < 0x10000 then
    [0xE0 ||| (n >>> 12), 0x80 ||| ((n >>> 6) &&& 0x3F), 0x80 ||| (n &&& 0x3F)]
  else
    [0xF0 ||| (n >>> 18), 0x80 ||| ((n >>> 12) &&& 0x3F),
      0x80 ||| ((n >>> 6) &&& 0x3F), 0x80 ||| (n &&& 0x3F)]

/-- The UTF-8 bytes of a Go string (Go strings are byte strings; `len` and
slicing in Go act on these bytes). -/
def goStringBytes (s : String) : List Nat := (s.data.map utf8EncodeChar).flatten

/-! ## Circle matcher (`backend/services/circle_matching.go`) -/

/-- `db.CircleCategory`. -/
inductive CircleCategory where
  | crisis
  | anxietyDepression
  | academicStress
  | socialAdjustment
  | generalSupport
deriving DecidableEq, Repr

/-- Crisis indicator keywords (highest priority). -/
def crisisKeywords : List String := ["self", "harm", "suicide", "hopeless"]

/-- Anxiety/Depression keywords. -/
def anxietyDepKeywords : List String :=
  ["anxiety", "anxious", "nervous", "low mood", "depressed", "depression", "sleep"]

/-- Academic stress keywords. -/
def academicKeywords : List String := ["exam", "stress", "motivation", "academic", "study"]

/-- Social/Adjustment keywords. -/
def socialKeywords : List String := ["relationship", "social", "adjustment", "college", "friend"]

/-- Does `topic` contain at least one of `keywords` as a substring?  This is
the body of the per-topic inner keyword loop (with its `break`). -/
def topicHitsAny (keywords : List String) (topic : String) : Bool :=
  keywords.any (fun keyword => strContains topic keyword)

/-- `DetermineCircleCategory`: lowercase the topics; short-circuit to crisis
on any crisis keyword substring; otherwise return the first of
anxiety/depression, academic stress, social/adjustment with at least one
topic hitting a keyword; default to general support.  The Go `count`
variables (number of topics hitting at least one keyword of the group) are
the lengths of the corresponding filters. -/
def DetermineCircleCategory (topics : List String) : CircleCategory :=
  let topicsLower := topics.map goToLower
  if topicsLower.any (topicHitsAny crisisKeywords) then .crisis
  else if (topicsLower.filter (topicHitsAny anxietyDepKeywords)).length > 0 then
    .anxietyDepression
  else if (topicsLower.filter (topicHitsAny academicKeywords)).length > 0 then
    .academicStress
  else if (topicsLower.filter (topicHitsAny socialKeywords)).length > 0 then
    .socialAdjustment
  else .generalSupport

/-- `IsCriticalRisk`: critical if both scores are 5+ or any score is 6. -/
def IsCriticalRisk (phq2Total gad2Total : Int) : Bool :=
  (phq2Total ≥ 5 && gad2Total ≥ 5) || phq2Total == 6 || gad2Total == 6

/-! ## Screening level (`backend/handlers/onboarding.go`) -/

/-- `db.ScreeningLevel`. -/
inductive ScreeningLevel where
  | low
  | medium
  | high
deriving DecidableEq, Repr

/-- `computeScreeningLevel`: band the larger of the two scores. -/
def computeScreeningLevel (phq2 gad2 : Int) : ScreeningLevel :=
  let maxScore := if gad2 > phq2 then gad2 else phq2
  if maxScore ≥ 5 then .high
  else if maxScore ≥ 3 then .medium
  else .low

/-! ## Safety scanner (`backend/services/safety.go`)

The scanner runs a fixed ordered table of 25 compiled regular expressions
over the input.  The regex engine itself (`regexp.FindAllStringIndex`) is
Go standard library code, external to this repository; we model it as a
parameter `findAll : Nat → String → List (Nat × Nat)` giving, for the
pattern at each table index, the list of matched spans as half-open
**byte** offsets into the UTF-8 representation of the input — exactly what
`FindAllStringIndex` reports.  Everything downstream of the engine is
translated from the source. -/

/-- `SafetyCategory`. -/
inductive SafetyCategory where
  | selfHarm
  | harmToOthers
  | doxxing
  | substanceAbuse
  | eatingDisorder
  | domesticAbuse
  | sexualHarm
deriving DecidableEq, Repr

/-- One entry of the `safetyPatterns` table: the category and severity the
rule carries (the compiled regex is the external engine's side of the
entry, addressed by table index). -/
structure SafetyPatternSpec where
  category : SafetyCategory
  severity : String
deriving DecidableEq, Repr

/-- The `safetyPatterns` table, in source order: category and severity of
each of the 25 rules. -/
def safetyPatterns : List SafetyPatternSpec := [
  -- Self-Harm - Critical (4 rules)
  ⟨.selfHarm, "critical"⟩, ⟨.selfHarm, "critical"⟩,
  ⟨.selfHarm, "critical"⟩, ⟨.selfHarm, "critical"⟩,
  -- Self-Harm - High (2 rules)
  ⟨.selfHarm, "high"⟩, ⟨.selfHarm, "high"⟩,
  -- Harm to Others - Critical (3 rules)
  ⟨.harmToOthers, "critical"⟩, ⟨.harmToOthers, "critical"⟩, ⟨.harmToOthers, "critical"⟩,
  -- Harm to Others - High (1 rule)
  ⟨.harmToOthers, "high"⟩,
  -- Doxxing - Critical (4 rules, incl. the SSN and credit-card digit detectors)
  ⟨.doxxing, "critical"⟩, ⟨.doxxing, "critical"⟩,
  ⟨.doxxing, "critical"⟩, ⟨.doxxing, "critical"⟩,
  -- Substance Abuse - Critical (2 rules)
  ⟨.substanceAbuse, "critical"⟩, ⟨.substanceAbuse, "critical"⟩,
  -- Substance Abuse - High (2 rules)
  ⟨.substanceAbuse, "high"⟩, ⟨.substanceAbuse, "high"⟩,
  -- Eating Disorder - High (2 rules)
  ⟨.eatingDisorder, "high"⟩, ⟨.eatingDisorder, "high"⟩,
  -- Domestic Abuse - Critical (2 rules)
  ⟨.domesticAbuse, "critical"⟩, ⟨.domesticAbuse, "critical"⟩,
  -- Domestic Abuse - High (1 rule)
  ⟨.domesticAbuse, "high"⟩,
  -- Sexual Harm - Critical (2 rules)
  ⟨.sexualHarm, "critical"⟩, ⟨.sexualHarm, "critical"⟩]

/-- `SafetyMatch`: one reported match.  `matchedText` is the Go byte slice
`content[start:end]` (Go slices the raw UTF-8 bytes); `start`/`stop` are
the byte offsets (`stop` renders the source field `End`). -/
structure SafetyMatch where
  category : SafetyCategory
  severity : String
  matchedText : List Nat
  start : Nat
  stop : Nat
deriving DecidableEq, Repr

/-- `SafetyResult`.  `maskedContent = none` models a Go runtime panic
raised while masking (slicing `[]rune(content)` out of range); otherwise
`some` of the `MaskedContent` field. -/
structure SafetyResult where
  flagged : Bool
  maskedContent : Option String
  Matches : List SafetyMatch
  requiresEscalation : Bool
deriving DecidableEq, Repr

/-- `matchPos` (the masking-side record of a match; `stop` renders `end`). -/
structure matchPos where
  start : Nat
  stop : Nat
  category : SafetyCategory
  severity : String
deriving DecidableEq, Repr

/-- Placeholder for out-of-range index reads during the exchange sort (the
source never reads out of range; `List.getD` needs a default). -/
def dfltMatchPos : matchPos := ⟨0, 0, .selfHarm, ""⟩

/-- One comparison/swap of the source's double-loop exchange sort:
`if matches[j].start > matches[i].start` swap `matches[i]` and
`matches[j]`. -/
def exchangeStep (l : List matchPos) (i j : Nat) : List matchPos :=
  let mi := l.getD i dfltMatchPos
  let mj := l.getD j dfltMatchPos
  if mi.start < mj.start then (l.set i mj).set j mi else l

/-- The source's in-place double loop sorting matches by start position
descending (an exchange sort: for each `i`, for each `j > i`, swap when out
of order). -/
def sortMatchesDesc (l : List matchPos) : List matchPos :=
  (List.range l.length).foldl (fun acc i =>
    ((List.range l.length).drop (i + 1)).foldl (fun acc2 j => exchangeStep acc2 i j) acc) l

/-- Merge overlapping-or-adjacent ranges, following the source exactly: the
accumulator is the `merged` slice with its most recent element first (the
source appends and mutates `merged[len-1]` in place); on merge the span is
widened and the severity is upgraded to critical when the incoming match is
critical; the category of the earlier entry is kept. -/
def mergeMatches (sorted : List matchPos) : List matchPos :=
  match sorted with
  | [] => []
  | first :: rest =>
    (rest.foldl (fun acc current =>
      match acc with
      | [] => [current]
      | last :: others =>
        if current.stop ≥ last.start then
          { start := if current.start < last.start then current.start else last.start,
            stop := if current.stop > last.stop then current.stop else last.stop,
            category := last.category,
            severity := if current.severity = "critical" then "critical" else last.severity }
            :: others
        else current :: last :: others) [first]).reverse

/-- The mask character `U+25AE`. -/
def maskChar : Char := '▮'

/-- One masking step of the source loop:
`runes = append(runes[:m.start], append([]rune(mask), runes[m.end:]...)...)`.
Go slicing of the rune array panics when an index exceeds the array length
(the offsets come from the byte-oriented regex engine, so this can
happen); we model the panic as `none`. -/
def goMaskStep (runes : List Char) (m : matchPos) : Option (List Char) :=
  if m.start ≤ runes.length ∧ m.stop ≤ runes.length then
    some (runes.take m.start ++ List.replicate (m.stop - m.start) maskChar ++ runes.drop m.stop)
  else none

/-- `maskContent`: sort matches by start descending, merge overlapping
ranges, then replace each merged range of the **rune** slice
`[]rune(content)` with a run of mask characters, from end to start.  The
range bounds are the byte offsets reported by the regex engine, applied
unchanged to the rune slice — faithfully reproducing the source. -/
def maskContent (content : String) (positions : List matchPos) : Option String :=
  if positions.isEmpty then some content
  else
    let merged := mergeMatches (sortMatchesDesc positions)
    (merged.foldlM goMaskStep content.data).map String.mk

/-- `CheckContent`: short-circuit on whitespace-only input; otherwise run
every pattern, collect all matches (setting `flagged`, recording escalation
for critical-severity rules, and accumulating both the reported match list
and the masking positions), and mask the content when flagged. -/
def CheckContent (findAll : Nat → String → List (Nat × Nat)) (content : String) :
    SafetyResult :=
  let base : SafetyResult :=
    { flagged := false, maskedContent := some content, Matches := [],
      requiresEscalation := false }
  if goTrimSpace content = "" then base
  else
    let hits : List (SafetyPatternSpec × (Nat × Nat)) :=
      (safetyPatterns.enum.map (fun pi =>
        (findAll pi.1 content).map (fun m => (pi.2, m)))).flatten
    if hits.isEmpty then base
    else
      { flagged := true,
        maskedContent :=
          maskContent content (hits.map (fun pm => ⟨pm.2.1, pm.2.2, pm.1.category, pm.1.severity⟩)),
        Matches := hits.map (fun pm =>
          ⟨pm.1.category, pm.1.severity,
            ((goStringBytes content).drop pm.2.1).take (pm.2.2 - pm.2.1), pm.2.1, pm.2.2⟩),
        requiresEscalation := hits.any (fun pm => pm.1.severity == "critical") }

/-! ## Persistence model for the circle matcher

The Prisma client is external to the repository; we model the store it
gives the matcher access to as an explicit state value, and each Prisma
call as the corresponding pure query/update on that state (queries return
rows in insertion order; writes succeed).  Record ids are drawn from a
fresh-id counter. -/

/-- `db.CircleStatus`. -/
inductive CircleStatus where
  | active
  | full
deriving DecidableEq, Repr

/-- `db.UserRole` (the roles the matcher distinguishes). -/
inductive UserRole where
  | user
  | moderator
deriving DecidableEq, Repr

/-- A `Circle` row.  `maxMembers` carries the capacity column. -/
structure Circle where
  id : Nat
  name : String
  category : CircleCategory
  status : CircleStatus
  moderatorId : String
  maxMembers : Nat
deriving DecidableEq, Repr

/-- A `CircleMembership` row. -/
structure Membership where
  circleId : Nat
  userId : String
deriving DecidableEq, Repr

/-- A `User` row (the fields the matcher reads). -/
structure DbUser where
  id : String
  role : UserRole
deriving DecidableEq, Repr

/-- The slice of the store the matcher touches. -/
structure DBState where
  circles : List Circle
  memberships : List Membership
  users : List DbUser
  nextCircleId : Nat
deriving DecidableEq, Repr

/-- Modelled from the spec: the schema file carrying the `Circle` column
defaults is not part of the sources; per the spec a new circle starts
`active` with a fixed capacity ("maximum member count (fixed capacity,
e.g. 6)"). -/
def defaultMaxMembers : Nat := 6

/-- Member rows of one circle. -/
def membershipsOf (st : DBState) (circleId : Nat) : List Membership :=
  st.memberships.filter (fun m => m.circleId == circleId)

/-- `assignModeratorRoundRobin`: error when no moderator account exists;
otherwise scan all moderators keeping the one with the fewest circles in
`active` status, first-found winning ties.  (The Go scan starts from a
max-int sentinel, so the first moderator always replaces it; we fold from
the first moderator directly.) -/
def assignModeratorRoundRobin (st : DBState) : Except String DbUser :=
  let moderators := st.users.filter (fun u => u.role == UserRole.moderator)
  let activeCount := fun (u : DbUser) =>
    (st.circles.filter (fun c => c.moderatorId == u.id && c.status == CircleStatus.active)).length
  match moderators with
  | [] => .error "no moderators available"
  | m0 :: rest =>
    .ok (rest.foldl (fun best u =>
      if activeCount u < best.2 then (u, activeCount u) else best) (m0, activeCount m0)).1

/-- Category prefixes of `generateCircleName`. -/
def circleNamePrefixFor : CircleCategory → String
  | .crisis => "Crisis"
  | .anxietyDepression => "Mindful"
  | .academicStress => "Study"
  | .socialAdjustment => "Connect"
  | .generalSupport => "General"

/-- `generateCircleName`: `"<CategoryPrefix> Circle #<N>"` with `N` one more
than the count of existing circles of the category. -/
def generateCircleName (st : DBState) (category : CircleCategory) : String :=
  let circleNumber := (st.circles.filter (fun c => c.category == category)).length + 1
  circleNamePrefixFor category ++ " Circle #" ++ toString circleNumber

/-- `FindOrCreateCircle`: among circles of the category in `active` status,
return the first with free capacity and leave the store untouched;
otherwise assign a moderator round-robin, generate a name and create a new
circle. -/
def FindOrCreateCircle (st : DBState) (category : CircleCategory) :
    Except String (Circle × DBState) :=
  let candidates := st.circles.filter (fun c =>
    c.category == category && c.status == CircleStatus.active)
  match candidates.find? (fun c => (membershipsOf st c.id).length < c.maxMembers) with
  | some c => .ok (c, st)
  | none =>
    match assignModeratorRoundRobin st with
    | .error e => .error ("failed to assign moderator: " ++ e)
    | .ok moderator =>
      let newCircle : Circle :=
        { id := st.nextCircleId, name := generateCircleName st category,
          category := category, status := CircleStatus.active,
          moderatorId := moderator.id, maxMembers := defaultMaxMembers }
      .ok (newCircle,
        { st with circles := st.circles ++ [newCircle],
                  nextCircleId := st.nextCircleId + 1 })

/-- `AddUserToCircle`: reject when the user already holds any membership;
insert the membership row (the linked circle must exist); then re-read the
circle with its memberships and flip its status to `full` once the member
count has reached capacity. -/
def AddUserToCircle (st : DBState) (circleId : Nat) (userId : String) :
    Except String DBState :=
  if st.memberships.any (fun m => m.userId == userId) then
    .error "user already in a circle"
  else if !(st.circles.any (fun c => c.id == circleId)) then
    .error "failed to add user to circle"
  else
    let st1 : DBState := { st with memberships := st.memberships ++ [⟨circleId, userId⟩] }
    match st1.circles.find? (fun c => c.id == circleId) with
    | none => .error "failed to add user to circle"
    | some c =>
      if (membershipsOf st1 circleId).length ≥ c.maxMembers then
        .ok { st1 with circles := st1.circles.map (fun c2 =>
          if c2.id == circleId then { c2 with status := CircleStatus.full } else c2) }
      else .ok st1

/-- The triple `MatchUserToCircle` returns: matched circle (if any),
critical-risk flag, error (if any). -/
structure MatchOutcome where
  circle : Option Circle
  isCritical : Bool
  err : Option String
deriving DecidableEq, Repr

/-- `MatchUserToCircle`: short-circuit on critical risk without touching
the store; otherwise determine the category, find or create a circle, and
add the user to it. -/
def MatchUserToCircle (st : DBState) (userId : String) (topics : List String)
    (phq2Total gad2Total : Int) : MatchOutcome × DBState :=
  if IsCriticalRisk phq2Total gad2Total then
    ({ circle := none, isCritical := true, err := none }, st)
  else
    let category := DetermineCircleCategory topics
    match FindOrCreateCircle st category with
    | .error e => ({ circle := none, isCritical := false, err := some e }, st)
    | .ok (c, st1) =>
      match AddUserToCircle st1 c.id userId with
      | .error e => ({ circle := none, isCritical := false, err := some e }, st1)
      | .ok st2 => ({ circle := some c, isCritical := false, err := none }, st2)

/-- The emails `SubmitOnboarding` dispatches after matching
(`backend/handlers/onboarding.go`, the branch on the matching outcome):
critical risk sends the crisis-resource alert; a matching error sends
nothing (match pending); a successful match sends the circle-match
notification (the moderator lookup is modelled as succeeding). -/
inductive OnboardingEmail where
  | criticalRiskAlert
  | circleMatchNotification
deriving DecidableEq, Repr

/-- The dispatch decision of `SubmitOnboarding` on a matching outcome. -/
def onboardingEmails (outcome : MatchOutcome) : List OnboardingEmail :=
  if outcome.isCritical then [.criticalRiskAlert]
  else if outcome.err.isSome then []
  else if outcome.circle.isSome then [.circleMatchNotification]
  else []

/-! ## Realtime socket handlers (`backend/websocket/socket_server.go`)

Each event handler is modelled as a pure transition on a store state plus
the events it emits.  The authenticated identity of the connection
(`getUserIDFromConn`, reading the per-connection context map) is passed as
an `Option String` — `none` is an unauthenticated connection.  A payload
that failed JSON unmarshalling is likewise `none`.  Socket ids in this
store are strings, as on the wire.  Room join state (`ensureRoomMembership`)
is connection-local and does not affect the properties below, so it is not
carried. -/

/-- A circle row as the socket server reads it. -/
structure WsCircle where
  id : String
  name : String
  moderatorId : String
deriving DecidableEq, Repr

/-- A membership row keyed by string ids. -/
structure WsMembership where
  circleId : String
  userId : String
deriving DecidableEq, Repr

/-- A user row as the socket server reads it. -/
structure WsUser where
  id : String
  fullName : String
  profilePicture : Option String
deriving DecidableEq, Repr

/-- A `Message` row. -/
structure WsMessage where
  id : String
  circleId : String
  senderId : String
  content : String
  imageUrl : Option String
  createdAt : Nat
deriving DecidableEq, Repr

/-- A `MessageRead` row (read receipt). -/
structure ReadReceipt where
  messageId : String
  userId : String
deriving DecidableEq, Repr

/-- The slice of the store the socket handlers touch. -/
structure WsState where
  circles : List WsCircle
  memberships : List WsMembership
  users : List WsUser
  messages : List WsMessage
  receipts : List ReadReceipt
  nextMessageId : Nat
deriving DecidableEq, Repr

/-- `MessagePayload` of `send_message` (after JSON unmarshalling; absent
optional fields decode to their zero values, as in Go). -/
structure MessagePayload where
  circleId : String
  content : String
  imageUrl : String
  timestamp : Int
deriving DecidableEq, Repr

/-- `ReadReceiptPayload` of `mark_read`. -/
structure ReadReceiptPayload where
  messageId : String
  circleId : String
deriving DecidableEq, Repr

/-- `MessageResponse`, the `new_message` broadcast body (`createdAt` kept
as the model timestamp; RFC3339 rendering is presentation only). -/
structure MessageResponse where
  id : String
  circleId : String
  senderId : String
  senderName : String
  senderAvatar : Option String
  content : String
  imageUrl : Option String
  createdAt : Nat
  readBy : List String
deriving DecidableEq, Repr

/-- The `message_read` broadcast body. -/
structure MessageReadEvent where
  messageId : String
  userId : String
  readBy : List String
deriving DecidableEq, Repr

/-- `userHasCircleAccess`: a membership of the user in the circle grants
access; otherwise the user must be the circle's moderator; a missing
circle denies access.  (The store is modelled as reachable, so the
error-return paths of the source do not arise.) -/
def userHasCircleAccess (st : WsState) (circleId userId : String) : Bool :=
  if st.memberships.any (fun m => m.userId == userId && m.circleId == circleId) then true
  else
    match st.circles.find? (fun c => c.id == circleId) with
    | none => false
    | some c => c.moderatorId == userId

/-- Effect of one `send_message` event: the store afterwards, the
`message_error` emission (if any) and the `new_message` broadcast (if
any). -/
structure SendEffect where
  state : WsState
  errorEmit : Option String
  broadcast : Option MessageResponse
deriving DecidableEq, Repr

/-- The `send_message` handler.  `receiptCreateFails` injects a failure of
the persistence call creating the sender's automatic self read receipt
(the source logs such a failure and continues).  Message creation itself
succeeds exactly when the linked circle and sender rows exist; a creation
failure emits `message_error` "Failed to send message" and stops. -/
def handleSendMessage (receiptCreateFails : Bool) (st : WsState)
    (connUserId : Option String) (payload : Option MessagePayload) (now : Nat) :
    SendEffect :=
  match connUserId with
  | none => { state := st, errorEmit := some "Not authenticated", broadcast := none }
  | some userId =>
    match payload with
    | none => { state := st, errorEmit := some "Invalid message format", broadcast := none }
    | some p =>
      let content := goTrimSpace p.content
      if p.circleId = "" ∨ content = "" then
        { state := st, errorEmit := some "Circle and message content are required",
          broadcast := none }
      else if !(userHasCircleAccess st p.circleId userId) then
        { state := st, errorEmit := some "Not authorized to send to this circle",
          broadcast := none }
      else
        match st.circles.find? (fun c => c.id == p.circleId),
              st.users.find? (fun u => u.id == userId) with
        | some _, some sender =>
          let message : WsMessage :=
            { id := "msg-" ++ toString st.nextMessageId, circleId := p.circleId,
              senderId := userId, content := content,
              imageUrl := if p.imageUrl = "" then none else some p.imageUrl,
              createdAt := now }
          let st1 : WsState :=
            { st with messages := st.messages ++ [message],
                      nextMessageId := st.nextMessageId + 1 }
          -- sender auto-receipt: on failure the error is logged and swallowed
          let st2 : WsState :=
            if receiptCreateFails then st1
            else { st1 with receipts := st1.receipts ++ [⟨message.id, userId⟩] }
          { state := st2, errorEmit := none,
            broadcast := some
              { id := message.id, circleId := message.circleId, senderId := sender.id,
                senderName := sender.fullName, senderAvatar := sender.profilePicture,
                content := message.content, imageUrl := message.imageUrl,
                createdAt := now, readBy := [userId] } }
        | _, _ =>
          { state := st, errorEmit := some "Failed to send message", broadcast := none }

/-- Effect of one `mark_read` event: the store afterwards and the
`message_read` broadcast (if any).  The handler never emits an error
event; every failure path returns silently. -/
structure MarkReadEffect where
  state : WsState
  broadcast : Option MessageReadEvent
deriving DecidableEq, Repr

/-- The `mark_read` handler: silent drop when unauthenticated, on a malformed
payload, on missing identifiers, or without circle access; silent no-op when
a receipt for the (message, user) pair already exists; otherwise create the
receipt and broadcast the complete reader list. -/
def handleMarkRead (st : WsState) (connUserId : Option String)
    (payload : Option ReadReceiptPayload) : MarkReadEffect :=
  match connUserId with
  | none => { state := st, broadcast := none }
  | some userId =>
    match payload with
    | none => { state := st, broadcast := none }
    | some p =>
      if p.circleId = "" ∨ p.messageId = "" then { state := st, broadcast := none }
      else if !(userHasCircleAccess st p.circleId userId) then
        { state := st, broadcast := none }
      else if st.receipts.any (fun r => r.messageId == p.messageId && r.userId == userId) then
        { state := st, broadcast := none }
      else
        let st1 : WsState := { st with receipts := st.receipts ++ [⟨p.messageId, userId⟩] }
        let readBy :=
          (st1.receipts.filter (fun r => r.messageId == p.messageId)).map (fun r => r.userId)
        { state := st1,
          broadcast := some { messageId := p.messageId, userId := userId, readBy := readBy } }

/-! ## Concrete instances used by witnesses and counterexamples -/

/-- A regex engine reporting no match for any pattern. -/
def emptyFindAll : Nat → String → List (Nat × Nat) := fun _ _ => []

/-- Multi-byte masking probe: the leading character occupies two UTF-8
bytes, so byte offsets into this string run ahead of rune offsets. -/
def maskBugInput : String := "é kill myself aaaa"

/-- The same probe without the trailing padding: the match runs to the end
of the string, so its byte end offset exceeds the rune count. -/
def maskBugPanicInput : String := "é kill myself"

/-- The regex engine evaluated at the two probe inputs.  Pattern 0 of the
table is the first self-harm rule, whose alternative `kill\s+myself`
(case-insensitive, word-bounded) matches both probes; `é` encodes as two
bytes, so `FindAllStringIndex` reports the span of `kill myself` as the
byte interval `[3, 14)` in each.  No other rule of the table matches these
inputs.  Everywhere else this engine reports nothing, which only makes the
masking claim easier to satisfy. -/
def maskBugFindAll : Nat → String → List (Nat × Nat) := fun i c =>
  if i = 0 ∧ (c = maskBugInput ∨ c = maskBugPanicInput) then [(3, 14)] else []

/-- A store for the capacity scenario: one anxiety-depression circle of
capacity 2 holding one member, and one moderator account. -/
def dbExample : DBState :=
  { circles := [⟨0, "Mindful Circle #1", .anxietyDepression, .active, "mod1", 2⟩],
    memberships := [⟨0, "alice"⟩],
    users := [⟨"mod1", .moderator⟩],
    nextCircleId := 1 }

/-- A store for the socket scenarios: one circle with two members, one
message already sent and self-read by its sender. -/
def wsExample : WsState :=
  { circles := [⟨"c1", "Mindful Circle #1", "mod1"⟩],
    memberships := [⟨"c1", "u1"⟩, ⟨"c1", "u2"⟩],
    users := [⟨"u1", "Alice", none⟩, ⟨"u2", "Bob", none⟩],
    messages := [⟨"m1", "c1", "u1", "hello", none, 0⟩],
    receipts := [⟨"m1", "u1"⟩],
    nextMessageId := 2 }

/-- Receipts stored for one (message, user) pair. -/
def countReceipts (st : WsState) (messageId userId : String) : Nat :=
  (st.receipts.filter (fun r => r.messageId == messageId && r.userId == userId)).length

/-! ## Theorems -/

/-- C1 (counterexample): the claim asserts `determineCategory` maps every
topics list containing "suicidal thoughts" to the crisis category; in fact
none of the crisis keywords ("self", "harm", "suicide", "hopeless") is a
substring of "suicidal thoughts" — in particular "suicidal" does not
contain "suicide" — nor does any lower-priority keyword match, so the
category is general support, not crisis. -/
theorem determineCategory_suicidalThoughts_counterexample :
    DetermineCircleCategory ["suicidal thoughts"] = CircleCategory.generalSupport ∧
    DetermineCircleCategory ["suicidal thoughts"] ≠ CircleCategory.crisis := by
  decide

/-- C1 (amended): for every topics list containing a topic whose lowercase
form contains one of the crisis keywords as a substring,
`DetermineCircleCategory` returns the crisis category regardless of the
other topics present, because the crisis keyword check runs first and
short-circuits. -/
theorem determineCategory_crisis_shortCircuit (topics : List String) (t : String)
    (ht : t ∈ topics) (hk : topicHitsAny crisisKeywords (goToLower t) = true) :
    DetermineCircleCategory topics = CircleCategory.crisis := by
  unfold DetermineCircleCategory
  have hany : (topics.map goToLower).any (topicHitsAny crisisKeywords) = true :=
    List.any_eq_true.mpr ⟨goToLower t, List.mem_map_of_mem _ ht, hk⟩
  simp [hany]

/-- C1 (witness): a list containing the topic "suicide" short-circuits to
crisis despite other topics being present. -/
theorem determineCategory_crisis_shortCircuit_witness :
    "suicide" ∈ ["Exam stress", "suicide", "Sleep issues"] ∧
    DetermineCircleCategory ["Exam stress", "suicide", "Sleep issues"] =
      CircleCategory.crisis :=
  ⟨by decide,
    determineCategory_crisis_shortCircuit _ "suicide" (by decide) (by decide)⟩

/-- C3: on the valid score domain `[0, 6] × [0, 6]`, `IsCriticalRisk` holds
iff both scores are at least 5 or either score equals 6. -/
theorem isCriticalRisk_spec (p g : Int) (hp0 : 0 ≤ p) (hp6 : p ≤ 6)
    (hg0 : 0 ≤ g) (hg6 : g ≤ 6) :
    IsCriticalRisk p g = true ↔ ((5 ≤ p ∧ 5 ≤ g) ∨ p = 6 ∨ g = 6) := by
  unfold IsCriticalRisk
  simp only [Bool.or_eq_true, Bool.and_eq_true, decide_eq_true_eq, beq_iff_eq, ge_iff_le]
  tauto

/-- C3 (witness): the characterisation applied at (5,5), plus the other
concrete evaluations the claim lists. -/
theorem isCriticalRisk_spec_witness :
    (0 ≤ (5 : Int) ∧ (5 : Int) ≤ 6) ∧
    (IsCriticalRisk 5 5 = true ↔ ((5 ≤ (5 : Int) ∧ 5 ≤ (5 : Int)) ∨ (5 : Int) = 6 ∨ (5 : Int) = 6)) ∧
    IsCriticalRisk 5 5 = true ∧ IsCriticalRisk 6 0 = true ∧
    IsCriticalRisk 0 6 = true ∧ IsCriticalRisk 4 4 = false :=
  ⟨⟨by decide, by decide⟩,
    isCriticalRisk_spec 5 5 (by decide) (by decide) (by decide) (by decide),
    by decide, by decide, by decide, by decide⟩

/-- C10: the stored screening level is the banding of the larger score:
high iff `max ≥ 5`, medium iff `3 ≤ max ≤ 4`, low iff `max ≤ 2`. -/
theorem computeScreeningLevel_bands (p g : Int) :
    (computeScreeningLevel p g = ScreeningLevel.high ↔ 5 ≤ max p g)
    ∧ (computeScreeningLevel p g = ScreeningLevel.medium ↔ 3 ≤ max p g ∧ max p g ≤ 4)
    ∧ (computeScreeningLevel p g = ScreeningLevel.low ↔ max p g ≤ 2) := by
  have hm : max p g = if g > p then g else p := by
    rcases lt_or_le p g with h | h
    · rw [if_pos h, max_eq_right h.le]
    · rw [if_neg (not_lt.mpr h), max_eq_left h]
  simp only [computeScreeningLevel, hm]
  split_ifs with h1 h2 <;> refine ⟨?_, ?_, ?_⟩ <;> simp_all <;> omega

/-- C4: when the screening scores are critical, `MatchUserToCircle` returns
`(no circle, isCritical, no error)` and leaves the store untouched — no
circle is created or looked up and no membership row is inserted — and the
caller (`SubmitOnboarding`) is the one that dispatches the critical-risk
alert on that outcome. -/
theorem matchUserToCircle_critical (st : DBState) (userId : String)
    (topics : List String) (p g : Int) (h : IsCriticalRisk p g = true) :
    MatchUserToCircle st userId topics p g =
      ({ circle := none, isCritical := true, err := none }, st)
    ∧ onboardingEmails (MatchUserToCircle st userId topics p g).1 =
      [OnboardingEmail.criticalRiskAlert] := by
  unfold MatchUserToCircle
  simp [h, onboardingEmails]

/-- C4 (witness): a PHQ-2 total of 6 on an arbitrary store. -/
theorem matchUserToCircle_critical_witness :
    IsCriticalRisk 6 0 = true ∧
    (MatchUserToCircle dbExample "newuser" ["Anxiety"] 6 0 =
        ({ circle := none, isCritical := true, err := none }, dbExample)
      ∧ onboardingEmails (MatchUserToCircle dbExample "newuser" ["Anxiety"] 6 0).1 =
        [OnboardingEmail.criticalRiskAlert]) :=
  ⟨by decide, matchUserToCircle_critical dbExample "newuser" ["Anxiety"] 6 0 (by decide)⟩

/-- C5: for every input and every behaviour of the regex engine, the
scanner's `RequiresEscalation` field is true iff some reported match has
severity "critical". -/
theorem checkContent_escalation_iff (findAll : Nat → String → List (Nat × Nat))
    (content : String) :
    (CheckContent findAll content).requiresEscalation = true ↔
      ∃ m ∈ (CheckContent findAll content).Matches, m.severity = "critical" := by
  unfold CheckContent
  by_cases h1 : goTrimSpace content = ""
  · simp [h1]
  · simp only [if_neg h1]
    by_cases h2 :
        ((safetyPatterns.enum.map (fun pi =>
          (findAll pi.1 content).map (fun m => (pi.2, m)))).flatten).isEmpty
    · simp [h2]
    · simp only [h2, Bool.false_eq_true, if_false, if_neg]
      simp only [List.any_eq_true, List.mem_map, beq_iff_eq]
      constructor
      · rintro ⟨pm, hpm, hs⟩
        exact ⟨_, ⟨pm, hpm, rfl⟩, hs⟩
      · rintro ⟨m, ⟨pm, hpm, rfl⟩, hs⟩
        exact ⟨pm, hpm, hs⟩

/-- C6: an input on which no rule reports a match produces the unflagged
result — not flagged, masked content equal to the original, empty match
list, no escalation — and empty or whitespace-only input short-circuits to
that same result whatever the engine would report. -/
theorem checkContent_noMatch_clean (findAll : Nat → String → List (Nat × Nat))
    (content : String) :
    ((∀ i, i < safetyPatterns.length → findAll i content = []) →
      CheckContent findAll content =
        { flagged := false, maskedContent := some content, Matches := [],
          requiresEscalation := false })
    ∧ (goTrimSpace content = "" →
      CheckContent findAll content =
        { flagged := false, maskedContent := some content, Matches := [],
          requiresEscalation := false }) := by
  constructor
  · intro h
    unfold CheckContent
    by_cases h1 : goTrimSpace content = ""
    · simp [h1]
    · have hlt : ∀ x ∈ safetyPatterns.enum, x.1 < safetyPatterns.length :=
        List.forall_mem_enum.mpr (fun i hi => hi)
      have hnil : (safetyPatterns.enum.map (fun pi =>
          (findAll pi.1 content).map (fun m => (pi.2, m)))).flatten = [] := by
        rw [List.flatten_eq_nil_iff]
        intro l hl
        rcases List.mem_map.mp hl with ⟨pi, hpi, rfl⟩
        rw [h pi.1 (hlt pi hpi)]
        rfl
      simp [h1, hnil]
  · intro h1
    unfold CheckContent
    simp [h1]

/-- C6 (witness): a no-match engine on "hello", and a whitespace-only
input under an engine that would report a match. -/
theorem checkContent_noMatch_clean_witness :
    (CheckContent emptyFindAll "hello" =
      { flagged := false, maskedContent := some "hello", Matches := [],
        requiresEscalation := false })
    ∧ (goTrimSpace "  " = ""
      ∧ CheckContent maskBugFindAll "  " =
        { flagged := false, maskedContent := some "  ", Matches := [],
          requiresEscalation := false }) :=
  ⟨(checkContent_noMatch_clean emptyFindAll "hello").1 (fun _ _ => rfl),
    by decide,
    (checkContent_noMatch_clean maskBugFindAll "  ").2 (by decide)⟩

/-- C2 (bug evaluation): the regex engine reports matched spans as byte
offsets, but `maskContent` applies them unchanged to the rune slice
`[]rune(content)`.  On `"é kill myself aaaa"` the match `kill myself`
occupies logical characters 2..12 (and byte interval `[3, 14)`), yet the
masked output keeps the matched character `k` at rune index 2 and masks
the unmatched space at rune index 13 instead; on `"é kill myself"` the
byte end offset 14 overruns the 13-rune slice and masking panics, so the
"masked length equals original length over logical characters" contract
cannot hold on multi-byte input. -/
theorem maskContent_byteOffset_bug :
    ((maskBugInput.data.drop 2).take 11 = "kill myself".data
      ∧ maskBugInput.data.length = 18)
    ∧ (CheckContent maskBugFindAll maskBugInput).flagged = true
    ∧ (CheckContent maskBugFindAll maskBugInput).maskedContent =
        some "é k▮▮▮▮▮▮▮▮▮▮▮aaaa"
    ∧ ((CheckContent maskBugFindAll maskBugInput).maskedContent.getD "").data.getD 2 ' ' = 'k'
    ∧ (maskBugPanicInput.data.length = 13
      ∧ (CheckContent maskBugFindAll maskBugPanicInput).maskedContent = none) := by
  decide

/-- C8: `mark_read` is idempotent.  For a user with access to the circle
and a store holding at most one receipt for the (message, user) pair (the
uniqueness invariant), processing the event twice leaves exactly one stored
receipt, and the second processing is a silent no-op: it changes nothing in
the store and broadcasts no `message_read` event (the handler has no error
emission at all — every failure path is a silent return). -/
theorem markRead_idempotent (st : WsState) (uid : String) (p : ReadReceiptPayload)
    (hmid : p.messageId ≠ "") (hcid : p.circleId ≠ "")
    (hacc : userHasCircleAccess st p.circleId uid = true)
    (hinv : countReceipts st p.messageId uid ≤ 1) :
    countReceipts (handleMarkRead (handleMarkRead st (some uid) (some p)).state
        (some uid) (some p)).state p.messageId uid = 1
    ∧ handleMarkRead (handleMarkRead st (some uid) (some p)).state (some uid) (some p) =
      { state := (handleMarkRead st (some uid) (some p)).state, broadcast := none } := by
  by_cases hex : (st.receipts.any fun r => r.messageId == p.messageId && r.userId == uid) = true
  · -- a receipt already exists: both calls are silent no-ops
    have he1 : handleMarkRead st (some uid) (some p) = { state := st, broadcast := none } := by
      unfold handleMarkRead
      simp [hmid, hcid, hacc, hex]
    have hpos : 0 < countReceipts st p.messageId uid := by
      rcases List.any_eq_true.mp hex with ⟨r, hr, hpr⟩
      exact List.length_pos.mpr (List.ne_nil_of_mem (List.mem_filter.mpr ⟨hr, hpr⟩))
    have hst1 : (handleMarkRead st (some uid) (some p)).state = st := by rw [he1]
    constructor
    · rw [hst1, hst1]
      omega
    · rw [hst1]
      exact he1
  · -- no receipt yet: the first call stores one, the second is a no-op
    have hcount0 : countReceipts st p.messageId uid = 0 := by
      unfold countReceipts
      rw [List.length_eq_zero, List.filter_eq_nil_iff]
      intro r hr hpr
      exact hex (List.any_eq_true.mpr ⟨r, hr, hpr⟩)
    have hfilter0 : st.receipts.filter (fun r => r.messageId == p.messageId
        && r.userId == uid) = [] :=
      List.length_eq_zero.mp hcount0
    have he1 : handleMarkRead st (some uid) (some p) =
        { state := { st with receipts := st.receipts ++ [⟨p.messageId, uid⟩] },
          broadcast := some
            { messageId := p.messageId, userId := uid,
              readBy := ((st.receipts ++ [ReadReceipt.mk p.messageId uid]).filter
                  (fun r => r.messageId == p.messageId)).map (fun r => r.userId) } } := by
      unfold handleMarkRead
      simp [hmid, hcid, hacc, hex]
    have hacc1 : userHasCircleAccess
        { st with receipts := st.receipts ++ [⟨p.messageId, uid⟩] } p.circleId uid = true := by
      have heq : userHasCircleAccess
          { st with receipts := st.receipts ++ [⟨p.messageId, uid⟩] } p.circleId uid =
          userHasCircleAccess st p.circleId uid := rfl
      rw [heq, hacc]
    have hex1 : ((st.receipts ++ [ReadReceipt.mk p.messageId uid]).any
        fun r => r.messageId == p.messageId && r.userId == uid) = true := by
      simp
    have he2 : handleMarkRead
        { st with receipts := st.receipts ++ [⟨p.messageId, uid⟩] } (some uid) (some p) =
        { state := { st with receipts := st.receipts ++ [⟨p.messageId, uid⟩] },
          broadcast := none } := by
      unfold handleMarkRead
      simp [hmid, hcid, hacc1, hex1]
    have hst1 : (handleMarkRead st (some uid) (some p)).state =
        { st with receipts := st.receipts ++ [⟨p.messageId, uid⟩] } := by rw [he1]
    have hst2 : (handleMarkRead
        { st with receipts := st.receipts ++ [⟨p.messageId, uid⟩] }
        (some uid) (some p)).state =
        { st with receipts := st.receipts ++ [⟨p.messageId, uid⟩] } := by rw [he2]
    constructor
    · rw [hst1, hst2]
      unfold countReceipts
      simp [List.filter_append, hfilter0]
    · rw [hst1]
      exact he2

/-- C8 (witness): user u2 marking message m1 read twice in the example
store. -/
theorem markRead_idempotent_witness :
    (userHasCircleAccess wsExample "c1" "u2" = true
      ∧ countReceipts wsExample "m1" "u2" ≤ 1)
    ∧ (countReceipts (handleMarkRead (handleMarkRead wsExample (some "u2")
          (some ⟨"m1", "c1"⟩)).state (some "u2") (some ⟨"m1", "c1"⟩)).state "m1" "u2" = 1
      ∧ handleMarkRead (handleMarkRead wsExample (some "u2") (some ⟨"m1", "c1"⟩)).state
          (some "u2") (some ⟨"m1", "c1"⟩) =
        { state := (handleMarkRead wsExample (some "u2") (some ⟨"m1", "c1"⟩)).state,
          broadcast := none }) :=
  ⟨⟨by decide, by decide⟩,
    markRead_idempotent wsExample "u2" ⟨"m1", "c1"⟩
      (by decide) (by decide) (by decide) (by decide)⟩

/-- C9: once message creation has succeeded, a failure of the persistence
call creating the sender's automatic self read receipt is non-fatal: with
the failure injected, the handler emits no `message_error`, persists the
message (and leaves the receipts unchanged), and still broadcasts the
`new_message` event carrying `readBy = [senderId]`. -/
theorem sendMessage_receiptFailure_nonfatal (st : WsState) (uid : String)
    (p : MessagePayload) (now : Nat)
    (hcid : p.circleId ≠ "") (hcontent : goTrimSpace p.content ≠ "")
    (hacc : userHasCircleAccess st p.circleId uid = true)
    (c : WsCircle) (hc : st.circles.find? (fun x => x.id == p.circleId) = some c)
    (u : WsUser) (hu : st.users.find? (fun x => x.id == uid) = some u) :
    handleSendMessage true st (some uid) (some p) now =
      { state := { st with
          messages := st.messages ++
            [{ id := "msg-" ++ toString st.nextMessageId, circleId := p.circleId,
               senderId := uid, content := goTrimSpace p.content,
               imageUrl := if p.imageUrl = "" then none else some p.imageUrl,
               createdAt := now }],
          nextMessageId := st.nextMessageId + 1 },
        errorEmit := none,
        broadcast := some
          { id := "msg-" ++ toString st.nextMessageId, circleId := p.circleId,
            senderId := u.id, senderName := u.fullName, senderAvatar := u.profilePicture,
            content := goTrimSpace p.content,
            imageUrl := if p.imageUrl = "" then none else some p.imageUrl,
            createdAt := now, readBy := [uid] } }
    ∧ u.id = uid := by
  have hid : u.id = uid := by
    have h := List.find?_some hu
    simpa using h
  constructor
  · unfold handleSendMessage
    simp [hcid, hcontent, hacc, hc, hu]
  · exact hid

/-- C9 (witness): user u1 sending to circle c1 in the example store while
the self-receipt write fails. -/
theorem sendMessage_receiptFailure_nonfatal_witness :
    (goTrimSpace " hi there " ≠ "" ∧ userHasCircleAccess wsExample "c1" "u1" = true)
    ∧ (handleSendMessage true wsExample (some "u1")
        (some ⟨"c1", " hi there ", "", 0⟩) 7 =
      { state := { wsExample with
          messages := wsExample.messages ++
            [{ id := "msg-" ++ toString wsExample.nextMessageId, circleId := "c1",
               senderId := "u1", content := goTrimSpace " hi there ",
               imageUrl := none, createdAt := 7 }],
          nextMessageId := wsExample.nextMessageId + 1 },
        errorEmit := none,
        broadcast := some
          { id := "msg-" ++ toString wsExample.nextMessageId, circleId := "c1",
            senderId := "u1", senderName := "Alice", senderAvatar := none,
            content := goTrimSpace " hi there ",
            imageUrl := none, createdAt := 7, readBy := ["u1"] } }
      ∧ "u1" = "u1") :=
  ⟨⟨by decide, by decide⟩,
    sendMessage_receiptFailure_nonfatal wsExample "u1" ⟨"c1", " hi there ", "", 0⟩ 7
      (by decide) (by decide) (by decide)
      ⟨"c1", "Mindful Circle #1", "mod1"⟩ (by decide)
      ⟨"u1", "Alice", none⟩ (by decide)⟩

/-- C7: in a store whose only active circle of a category sits at one
member below capacity, the assignment flow fills it and rolls over: the
circle lookup selects that circle without touching the store; adding one
more user brings its member count exactly to capacity and flips its status
to `full`; afterwards no circle of the category is both active and
selectable (so the member count never exceeded capacity while the status
was `active`), and the next lookup for the category creates a fresh circle
instead of selecting the full one. -/
theorem circleCapacity_fill_and_rollover (st : DBState) (cat : CircleCategory)
    (c : Circle) (uid : String)
    (hone : st.circles.filter
      (fun x => x.category == cat && x.status == CircleStatus.active) = [c])
    (hcount : (membershipsOf st c.id).length = c.maxMembers - 1)
    (hmax : 0 < c.maxMembers)
    (hnew : (st.memberships.any fun m => m.userId == uid) = false)
    (hfind : st.circles.find? (fun x => x.id == c.id) = some c)
    (hmods : st.users.filter (fun u => u.role == UserRole.moderator) ≠ [])
    (hfresh : c.id ≠ st.nextCircleId) :
    FindOrCreateCircle st cat = .ok (c, st)
    ∧ ∃ st2 : DBState,
        AddUserToCircle st c.id uid = .ok st2
        ∧ (membershipsOf st2 c.id).length = c.maxMembers
        ∧ st2.circles.find? (fun x => x.id == c.id) =
            some { c with status := CircleStatus.full }
        ∧ st2.circles.filter
            (fun x => x.category == cat && x.status == CircleStatus.active) = []
        ∧ ∃ (nc : Circle) (st3 : DBState),
            FindOrCreateCircle st2 cat = .ok (nc, st3)
            ∧ nc.id = st.nextCircleId ∧ nc.id ≠ c.id
            ∧ st3.circles = st2.circles ++ [nc] := by
  have hlt : (membershipsOf st c.id).length < c.maxMembers := by omega
  have hf2 : ((st.circles.map (fun c2 =>
      if c2.id == c.id then { c2 with status := CircleStatus.full } else c2)).filter
      (fun x => x.category == cat && x.status == CircleStatus.active)) = [] := by
    rw [List.filter_eq_nil_iff]
    intro x hx
    rcases List.mem_map.mp hx with ⟨y, hy, rfl⟩
    by_cases h : y.id == c.id
    · simp [h]
    · simp only [h, Bool.false_eq_true, if_false, if_neg]
      intro hpred
      have hyf : y ∈ st.circles.filter
          (fun x => x.category == cat && x.status == CircleStatus.active) :=
        List.mem_filter.mpr ⟨hy, hpred⟩
      rw [hone] at hyf
      have hyc : y = c := List.mem_singleton.mp hyf
      subst hyc
      exact h (by simp)
  constructor
  · -- the lookup selects the existing circle, leaving the store untouched
    unfold FindOrCreateCircle
    rw [hone]
    simp [List.find?, hlt]
  · refine ⟨{ st with
        memberships := st.memberships ++ [⟨c.id, uid⟩],
        circles := st.circles.map (fun c2 =>
          if c2.id == c.id then { c2 with status := CircleStatus.full } else c2) },
      ?_, ?_, ?_, hf2, ?_⟩
    · -- AddUserToCircle inserts the row and flips the status
      have hany : (st.circles.any fun x => x.id == c.id) = true :=
        List.any_eq_true.mpr ⟨c, List.mem_of_find?_eq_some hfind, by simp⟩
      have hge : c.maxMembers ≤
          (st.memberships.filter (fun m => m.circleId == c.id)).length + 1 := by
        unfold membershipsOf at hcount
        omega
      unfold AddUserToCircle
      simp [hnew, hany, hfind, membershipsOf, hge]
    · -- the member count equals the capacity afterwards
      unfold membershipsOf at hcount ⊢
      simp [List.filter_append, hcount]
      omega
    · -- the circle row now reads status = full
      rw [List.find?_map]
      have hcomp : ((fun x => x.id == c.id) ∘ (fun c2 =>
          if c2.id == c.id then { c2 with status := CircleStatus.full } else c2)) =
          (fun x : Circle => x.id == c.id) := by
        funext x
        by_cases h : x.id = c.id <;> simp [h]
      rw [hcomp, hfind]
      simp
    · -- the next lookup for the category creates a fresh circle
      obtain ⟨m0, rest, hsplit⟩ := List.exists_cons_of_ne_nil hmods
      have h6 : ∃ (nc : Circle) (st3 : DBState),
          FindOrCreateCircle { st with
            memberships := st.memberships ++ [⟨c.id, uid⟩],
            circles := st.circles.map (fun c2 =>
              if c2.id == c.id then { c2 with status := CircleStatus.full } else c2) } cat
            = .ok (nc, st3)
          ∧ nc.id = st.nextCircleId
          ∧ st3.circles = (st.circles.map (fun c2 =>
              if c2.id == c.id then { c2 with status := CircleStatus.full } else c2)) ++ [nc] := by
        simp only [FindOrCreateCircle, hf2, List.find?, assignModeratorRoundRobin, hsplit]
        exact ⟨_, _, rfl, rfl, rfl⟩
      obtain ⟨nc, st3, h61, h62, h63⟩ := h6
      refine ⟨nc, st3, h61, h62, ?_, h63⟩
      rw [h62]
      exact Ne.symm hfresh

/-- C7 (witness): the example store holds one active anxiety-depression
circle of capacity 2 with one member; adding user bob fills and flips it,
and the next lookup creates circle id 1. -/
theorem circleCapacity_fill_and_rollover_witness :
    ((membershipsOf dbExample 0).length = 2 - 1 ∧ 0 < 2
      ∧ dbExample.users.filter (fun u => u.role == UserRole.moderator) ≠ [])
    ∧ (FindOrCreateCircle dbExample CircleCategory.anxietyDepression =
        .ok (⟨0, "Mindful Circle #1", .anxietyDepression, .active, "mod1", 2⟩, dbExample)
      ∧ ∃ st2 : DBState,
          AddUserToCircle dbExample 0 "bob" = .ok st2
          ∧ (membershipsOf st2 0).length = 2
          ∧ st2.circles.find? (fun x => x.id == 0) =
              some ⟨0, "Mindful Circle #1", .anxietyDepression, .full, "mod1", 2⟩
          ∧ st2.circles.filter (fun x =>
              x.category == CircleCategory.anxietyDepression
                && x.status == CircleStatus.active) = []
          ∧ ∃ (nc : Circle) (st3 : DBState),
              FindOrCreateCircle st2 CircleCategory.anxietyDepression = .ok (nc, st3)
              ∧ nc.id = 1 ∧ nc.id ≠ 0
              ∧ st3.circles = st2.circles ++ [nc]) :=
  ⟨⟨by decide, by decide, by decide⟩,
    circleCapacity_fill_and_rollover dbExample CircleCategory.anxietyDepression
      ⟨0, "Mindful Circle #1", .anxietyDepression, .active, "mod1", 2⟩ "bob"
      (by decide) (by decide) (by decide) (by decide) (by decide) (by decide) (by decide)⟩

end Mindbridge
